import Mathlib

/-!
Verification of the request-serving core of the `cello` HTTP server
(`src/server/mod.rs`) via a shallow embedding in Lean 4.

Rust strings and byte buffers are modelled as `List Nat` (their UTF-8
bytes) where byte-level behaviour matters (query-string decoding, bodies),
and as Lean `String` where the code only compares or copies them (methods,
paths, header names).  Machine counters (`AtomicU64`) are modelled as `Nat`;
no claim in scope depends on 64-bit wraparound of a monotone counter.
The `hyper`/`http` wire library is external to the repository; its header
validation is abstracted as a boolean predicate passed to the response
builder.

Types from this repository that are referenced by `src/server/mod.rs` but
whose defining modules are not part of the source tree
(`crate::response::Response`, `crate::request::Request`,
`crate::middleware::MiddlewareChain` / guards / prometheus hook) are
modelled from the specification; each such definition carries a doc
comment saying so.
-/

/-- Bytes of an ASCII string literal (all source literals used here are ASCII). -/
def ascii (s : String) : List Nat :=
  s.data.map Char.toNat

-- ============================================================================
-- Server metrics (src/server/mod.rs, `ServerMetrics`): atomic counters
-- modelled as a pure record threaded through the request pipeline.
-- ============================================================================

structure Metrics where
  totalRequests : Nat
  activeConnections : Nat
  bytesReceived : Nat
  bytesSent : Nat
  totalErrors : Nat
deriving DecidableEq

/-- `ServerMetrics::inc_requests`. -/
def Metrics.incRequests (m : Metrics) : Metrics :=
  { m with totalRequests := m.totalRequests + 1 }

/-- `ServerMetrics::add_bytes_received`. -/
def Metrics.addBytesReceived (m : Metrics) (n : Nat) : Metrics :=
  { m with bytesReceived := m.bytesReceived + n }

/-- `ServerMetrics::add_bytes_sent`. -/
def Metrics.addBytesSent (m : Metrics) (n : Nat) : Metrics :=
  { m with bytesSent := m.bytesSent + n }

/-- `ServerMetrics::inc_errors`. -/
def Metrics.incErrors (m : Metrics) : Metrics :=
  { m with totalErrors := m.totalErrors + 1 }

/-- `ServerMetrics::avg_latency` (durations as nanosecond counts):
returns zero when the latency buffer is empty, otherwise sum divided
by length. -/
def avg_latency (latencies : List Nat) : Nat :=
  if latencies.isEmpty then 0
  else latencies.sum / latencies.length

/-- `ServerMetrics::requests_per_second`: elapsed seconds modelled as a
rational (the code uses `f64`; only the positivity guard and the
zero-elapsed branch are claim-relevant, and those are exact). -/
def requests_per_second (total : Nat) (elapsed : ℚ) : ℚ :=
  if 0 < elapsed then (total : ℚ) / elapsed else 0

-- ============================================================================
-- Internal Response and wire response
-- ============================================================================

/-- Modelled from the spec: `crate::response::Response` is not in the source
tree.  Per §3 of the spec it is "status code, header map, body bytes". -/
structure Response where
  status : Nat
  headers : List (String × String)
  body : List Nat
deriving DecidableEq

/-- Modelled from the spec: `Response::not_found` builds a 404 response whose
body is the supplied message (the dispatcher passes
"Not Found: {method} {path}"). -/
def Response.not_found (msg : List Nat) : Response :=
  { status := 404, headers := [], body := msg }

/-- Modelled from the spec: `Response::error(status, msg)` builds a response
with the given status and the message text as the body (§4.5: "converted to
a 500 response with the error text as the body"; middleware failures use the
middleware-supplied status and message). -/
def Response.error (status : Nat) (msg : List Nat) : Response :=
  { status := status, headers := [], body := msg }

/-- Modelled from the spec: `Response::from_json_bytes(bytes, status)` wraps
pre-serialized JSON bytes; per §8 the resulting wire response carries
`Content-Type: application/json` and the bytes unchanged as body. -/
def Response.from_json_bytes (bytes : List Nat) (status : Nat) : Response :=
  { status := status
    headers := [("Content-Type", "application/json")]
    body := bytes }

/-- `StatusCode::from_u16` of the `http` crate (external): valid wire status
codes are 100..=999; anything else has no wire equivalent. -/
def statusFromU16 (s : Nat) : Option Nat :=
  if 100 ≤ s ∧ s ≤ 999 then some s else none

/-- Wire-level response (status line, headers, body bytes). -/
structure WireResponse where
  status : Nat
  headers : List (String × String)
  body : List Nat
deriving DecidableEq

/-- `build_hyper_response` (src/server/mod.rs:955-975).  `headerOk`
abstracts the external `http` crate's header-name/value validation: the
hyper builder is poisoned by the first invalid header and then
`builder.body(..)` fails, in which case the code falls back to
`HyperResponse::new(b"Internal Server Error")` — a default (status 200)
response with that fixed body.  `metrics.add_bytes_sent` is applied to the
internal response's body length before the builder outcome is known. -/
def build_hyper_response (headerOk : String → String → Bool)
    (response : Response) (metrics : Metrics) : WireResponse × Metrics :=
  let status := (statusFromU16 response.status).getD 500
  let metrics := metrics.addBytesSent response.body.length
  if response.headers.all (fun kv => headerOk kv.1 kv.2) then
    ({ status := status, headers := response.headers, body := response.body },
      metrics)
  else
    ({ status := 200, headers := [], body := ascii "Internal Server Error" },
      metrics)

-- ============================================================================
-- Query-string parsing (src/server/mod.rs:686-713)
-- ============================================================================

/-- Value of an ASCII hex digit, if any. -/
def hexVal (b : Nat) : Option Nat :=
  if 48 ≤ b ∧ b ≤ 57 then some (b - 48)
  else if 65 ≤ b ∧ b ≤ 70 then some (b - 55)
  else if 97 ≤ b ∧ b ≤ 102 then some (b - 87)
  else none

/-- Percent-decoding of the external `urlencoding` crate (`decode_binary`):
`%` followed by two hex digits becomes the encoded byte; a malformed `%`
sequence is kept verbatim. -/
def percentDecode : List Nat → List Nat
  | [] => []
  | 37 :: a :: b :: rest =>
    match hexVal a, hexVal b with
    | some x, some y => (16 * x + y) :: percentDecode rest
    | _, _ => 37 :: percentDecode (a :: b :: rest)
  | c :: rest => c :: percentDecode rest

/-- Whether a byte is a UTF-8 continuation byte (0x80..=0xBF). -/
def utf8Cont (b : Nat) : Bool :=
  128 ≤ b ∧ b ≤ 191

/-- UTF-8 validity of a byte sequence (RFC 3629, as enforced by Rust's
`String::from_utf8`, which the `urlencoding` crate uses after decoding). -/
def utf8Valid : List Nat → Bool
  | [] => true
  | b :: rest =>
    if b ≤ 127 then utf8Valid rest
    else if b ≤ 193 then false
    else if b ≤ 223 then
      match rest with
      | c1 :: r => utf8Cont c1 && utf8Valid r
      | [] => false
    else if b = 224 then
      match rest with
      | c1 :: c2 :: r => (160 ≤ c1 ∧ c1 ≤ 191 : Bool) && utf8Cont c2 && utf8Valid r
      | _ => false
    else if b ≤ 236 then
      match rest with
      | c1 :: c2 :: r => utf8Cont c1 && utf8Cont c2 && utf8Valid r
      | _ => false
    else if b = 237 then
      match rest with
      | c1 :: c2 :: r => (128 ≤ c1 ∧ c1 ≤ 159 : Bool) && utf8Cont c2 && utf8Valid r
      | _ => false
    else if b ≤ 239 then
      match rest with
      | c1 :: c2 :: r => utf8Cont c1 && utf8Cont c2 && utf8Valid r
      | _ => false
    else if b = 240 then
      match rest with
      | c1 :: c2 :: c3 :: r =>
        (144 ≤ c1 ∧ c1 ≤ 191 : Bool) && utf8Cont c2 && utf8Cont c3 && utf8Valid r
      | _ => false
    else if b ≤ 243 then
      match rest with
      | c1 :: c2 :: c3 :: r => utf8Cont c1 && utf8Cont c2 && utf8Cont c3 && utf8Valid r
      | _ => false
    else if b = 244 then
      match rest with
      | c1 :: c2 :: c3 :: r =>
        (128 ≤ c1 ∧ c1 ≤ 143 : Bool) && utf8Cont c2 && utf8Cont c3 && utf8Valid r
      | _ => false
    else false

/-- `urlencoding::decode(..).unwrap_or_default()`: percent-decode, then the
UTF-8 check; an invalid result degrades to the empty string. -/
def decodeOrEmpty (bs : List Nat) : List Nat :=
  let decoded := percentDecode bs
  if utf8Valid decoded then decoded else []

/-- `value.replace('+', " ")` at the byte level ('+' is 43, ' ' is 32). -/
def replacePlus (bs : List Nat) : List Nat :=
  bs.map (fun b => if b = 43 then 32 else b)

/-- Split a byte string on a separator byte (Rust `str::split`). -/
def splitBytes (sep : Nat) : List Nat → List (List Nat)
  | [] => [[]]
  | b :: rest =>
    if b = sep then [] :: splitBytes sep rest
    else
      match splitBytes sep rest with
      | [] => [[b]]
      | seg :: segs => (b :: seg) :: segs

/-- One `pair` of the query string (src/server/mod.rs:693-711):
`splitn(2, '=')` gives (key, Some value) or (key, None); the value has `+`
replaced by a space before percent-decoding, the key does not. -/
def parsePair (pair : List Nat) : Option (List Nat × List Nat) :=
  match pair.findIdx? (fun b => b = 61) with
  | some i =>
    let key := pair.take i
    let value := pair.drop (i + 1)
    some (decodeOrEmpty key, decodeOrEmpty (replacePlus value))
  | none => some (decodeOrEmpty pair, [])

/-- `HashMap` insertion semantics of `collect()`: a later pair with the same
key overwrites the earlier one. -/
def mapInsert (m : List (List Nat × List Nat)) (k v : List Nat) :
    List (List Nat × List Nat) :=
  if m.any (fun kv => kv.1 = k) then
    m.map (fun kv => if kv.1 = k then (k, v) else kv)
  else m ++ [(k, v)]

/-- The query-string pipeline (src/server/mod.rs:690-712): split on `&`,
drop empty segments, parse each pair, collect into a map. -/
def parseQuery (qs : List Nat) : List (List Nat × List Nat) :=
  (((splitBytes 38 qs).filter (fun s => ¬ s.isEmpty)).filterMap parsePair).foldl
    (fun m kv => mapInsert m kv.1 kv.2) []

/-- The guarded form used by `handle_request` (src/server/mod.rs:687-688):
parsing runs only when the query string is non-empty. -/
def queryOf (qs : List Nat) : List (List Nat × List Nat) :=
  if qs.isEmpty then [] else parseQuery qs

-- ============================================================================
-- Internal Request, middleware model, JSON values
-- ============================================================================

/-- Modelled from the spec: `crate::request::Request` is not in the source
tree.  Per §3 it is "method, path, path params, parsed query parameters,
header map, and body bytes". -/
structure Request where
  method : String
  path : String
  params : List (String × String)
  query : List (List Nat × List Nat)
  headers : List (String × String)
  body : List Nat
deriving DecidableEq

/-- Modelled from the spec: the "cheap header/metadata-only clone (no body)"
taken before handler invocation (`Request::clone_without_body`). -/
def Request.cloneWithoutBody (r : Request) : Request :=
  { r with body := [] }

/-- Modelled from the spec: `Request::default()` used by
`after_request.unwrap_or_default()` (src/server/mod.rs:862). -/
def Request.empty : Request :=
  { method := "", path := "", params := [], query := [], headers := [], body := [] }

/-- Generic JSON-like value (`serde_json::Value`); numbers restricted to
integers, which is all the dispatcher inspects (`as_u64` for the status). -/
inductive JsonVal where
  | null
  | bool (b : Bool)
  | num (n : Int)
  | str (s : String)
  | arr (xs : List JsonVal)
  | obj (fields : List (String × JsonVal))

/-- `Value::as_object`. -/
def JsonVal.asObject : JsonVal → Option (List (String × JsonVal))
  | .obj fields => some fields
  | _ => none

/-- `Value::as_bool`. -/
def JsonVal.asBool : JsonVal → Option Bool
  | .bool b => some b
  | _ => none

/-- `Value::as_u64`: defined for non-negative integer numbers. -/
def JsonVal.asU64 : JsonVal → Option Nat
  | .num n => if 0 ≤ n then some n.toNat else none
  | _ => none

/-- `Value::as_str`. -/
def JsonVal.asStr : JsonVal → Option String
  | .str s => some s
  | _ => none

/-- `Map::get` on a JSON object. -/
def objGet (fields : List (String × JsonVal)) (k : String) : Option JsonVal :=
  (fields.find? (fun f => f.1 = k)).map (fun f => f.2)

/-- UTF-8 bytes of a string (`str::as_bytes`). -/
def utf8Bytes (s : String) : List Nat :=
  s.toUTF8.toList.map (fun b => b.toNat)

/-- Modelled from the spec: `Response::new(status)` (empty headers, empty
body). -/
def Response.new (status : Nat) : Response :=
  { status := status, headers := [], body := [] }

/-- Modelled from the spec: `Response::set_body`. -/
def Response.set_body (r : Response) (b : List Nat) : Response :=
  { r with body := b }

/-- Header-map insertion: replace the value of an existing key, else append. -/
def headerInsert (hs : List (String × String)) (k v : String) :
    List (String × String) :=
  if hs.any (fun kv => kv.1 = k) then
    hs.map (fun kv => if kv.1 = k then (k, v) else kv)
  else hs ++ [(k, v)]

/-- Modelled from the spec: `Response::set_header`. -/
def Response.set_header (r : Response) (k v : String) : Response :=
  { r with headers := headerInsert r.headers k v }

/-- Modelled from the spec: `Response::from_json_value(value, status)`
serializes a generic JSON value (the serializer lives in the missing
response module and is abstracted as `ser`); like the pre-serialized form
it is served as `application/json`. -/
def Response.from_json_value (ser : JsonVal → List Nat) (v : JsonVal)
    (status : Nat) : Response :=
  { status := status
    headers := [("Content-Type", "application/json")]
    body := ser v }

/-- Middleware failure: "Failure carries a status code and message" (§6). -/
structure MwFailure where
  status : Nat
  message : List Nat

/-- Middleware action: Continue or Stop(response) (§6). -/
inductive MwAction where
  | cont
  | stop (response : Response)

/-- Modelled from the spec: one middleware/guard; `before` and `after` may
mutate the request/response in place (returned alongside the action) or
fail. -/
structure Middleware where
  before : Request → Except MwFailure (MwAction × Request)
  after : Request → Response → Except MwFailure (MwAction × Response)

/-- Modelled from the spec: `MiddlewareChain::execute_before` — run each
middleware in order; `Stop` short-circuits the chain, a failure aborts it. -/
def executeBefore : List Middleware → Request → Except MwFailure (Request ⊕ Response)
  | [], req => .ok (.inl req)
  | mw :: rest, req =>
    match mw.before req with
    | .error e => .error e
    | .ok (.stop resp, _) => .ok (.inr resp)
    | .ok (.cont, req2) => executeBefore rest req2

/-- Modelled from the spec: `MiddlewareChain::execute_after` — `.inl` is the
(possibly mutated) response after all stages continued, `.inr` a replacement
response from a `Stop`. -/
def executeAfter : List Middleware → Request → Response →
    Except MwFailure (Response ⊕ Response)
  | [], _, resp => .ok (.inl resp)
  | mw :: rest, req, resp =>
    match mw.after req resp with
    | .error e => .error e
    | .ok (.stop newResp, _) => .ok (.inr newResp)
    | .ok (.cont, resp2) => executeAfter rest req resp2

/-- Modelled from the spec: handler outcome — "raw pre-serialized bytes or a
generic structured value" (§6); `src/server/mod.rs` matches these as
`HandlerResult::JsonBytes` / `HandlerResult::JsonValue`. -/
inductive HandlerResult where
  | jsonBytes (bytes : List Nat)
  | jsonValue (v : JsonVal)

/-- Result of `Router::match_route`: handler id plus extracted path
parameters (spec §3, `RouteMatch`). -/
structure RouteMatch where
  handler_id : Nat
  params : List (String × String)

/-- Incoming wire request as seen by `handle_request`: method, path, raw
query bytes, headers, and the outcome of reading the body (`req.collect()`
may fail). -/
structure WireRequest where
  method : String
  path : String
  query : List Nat
  headers : List (String × String)
  bodyResult : Except Unit (List Nat)

/-- The shared per-request context of `handle_request`: router, handler
registry, the middleware chain (sync and async lists), guards, the optional
prometheus instrumentation hook, the wire library's header validation, and
the JSON serializer of the response module. -/
structure ServerCtx where
  matchRoute : String → String → Option RouteMatch
  invoke : Nat → Request → Except (List Nat) HandlerResult
  syncMw : List Middleware
  asyncMw : List Middleware
  guards : List Middleware
  prometheus : Option Middleware
  headerOk : String → String → Bool
  jsonSerialize : JsonVal → List Nat

-- ============================================================================
-- handle_request (src/server/mod.rs:651-950)
-- ============================================================================

/-- Body collection (src/server/mod.rs:723-744): skipped for GET / HEAD /
OPTIONS / DELETE; otherwise read fully, counting `bytes_received` only for a
non-empty body; a read failure degrades to an empty body plus one error. -/
def collectBody (method : String) (bodyResult : Except Unit (List Nat))
    (m : Metrics) : List Nat × Metrics :=
  match method with
  | "GET" | "HEAD" | "OPTIONS" | "DELETE" => ([], m)
  | _ =>
    match bodyResult with
    | .ok bytes =>
      if bytes.isEmpty then ([], m)
      else (bytes, m.addBytesReceived bytes.length)
    | .error _ => ([], m.incErrors)

/-- One "before" middleware stage of the dispatcher (src/server/mod.rs:753-
765 and analogues): skipped when the list is empty; `Stop` and failures
short-circuit to a wire response (failures also increment the error
counter). -/
def beforeStage (ctx : ServerCtx) (mws : List Middleware) (req : Request)
    (m : Metrics) : Except (WireResponse × Metrics) Request :=
  if mws.isEmpty then .ok req
  else
    match executeBefore mws req with
    | .ok (.inl req2) => .ok req2
    | .ok (.inr resp) => .error (build_hyper_response ctx.headerOk resp m)
    | .error e =>
      .error (build_hyper_response ctx.headerOk
        (Response.error e.status e.message) (m.incErrors))

/-- The prometheus "before" hook (src/server/mod.rs:782-799): consulted only
when configured. -/
def promBefore (ctx : ServerCtx) (req : Request) (m : Metrics) :
    Except (WireResponse × Metrics) Request :=
  match ctx.prometheus with
  | none => .ok req
  | some p =>
    match p.before req with
    | .ok (.cont, req2) => .ok req2
    | .ok (.stop resp, _) => .error (build_hyper_response ctx.headerOk resp m)
    | .error e =>
      .error (build_hyper_response ctx.headerOk
        (Response.error e.status e.message) (m.incErrors))

/-- `HandlerResult::JsonValue` branch of the generic response construction
(src/server/mod.rs:869-899): an object carrying the reserved
`__cello_response__` marker is unpacked into explicit status (truncated to
u16), body, and headers; anything else goes through
`Response::from_json_value`. -/
def responseFromValue (ser : JsonVal → List Nat) (v : JsonVal) : Response :=
  match v.asObject with
  | some obj =>
    if ((objGet obj "__cello_response__").bind JsonVal.asBool).getD false then
      let status := (((objGet obj "status").bind JsonVal.asU64).getD 200) % 65536
      let bodyStr := ((objGet obj "body").bind JsonVal.asStr).getD ""
      let resp := (Response.new status).set_body (utf8Bytes bodyStr)
      match (objGet obj "headers").bind JsonVal.asObject with
      | some hs =>
        hs.foldl (fun r kv =>
          match kv.2.asStr with
          | some s => r.set_header kv.1 s
          | none => r) resp
      | none => resp
    else Response.from_json_value ser v 200
  | none => Response.from_json_value ser v 200

/-- The "after" stages (src/server/mod.rs:908-949): async after-middleware,
then sync after-middleware (`Stop` replaces the response, failures become
error responses and count one error), then the prometheus after hook whose
result is ignored (`let _ = p.after(..)`) though its in-place mutation of
the response persists; finally the wire response is built. -/
def afterStages (ctx : ServerCtx) (request : Request) (response : Response)
    (m : Metrics) : WireResponse × Metrics :=
  let step1 : Except (WireResponse × Metrics) Response :=
    if ctx.asyncMw.isEmpty then .ok response
    else
      match executeAfter ctx.asyncMw request response with
      | .ok (.inl resp) => .ok resp
      | .ok (.inr newResp) => .error (build_hyper_response ctx.headerOk newResp m)
      | .error e =>
        .error (build_hyper_response ctx.headerOk
          (Response.error e.status e.message) (m.incErrors))
  match step1 with
  | .error out => out
  | .ok response =>
    let step2 : Except (WireResponse × Metrics) Response :=
      if ctx.syncMw.isEmpty then .ok response
      else
        match executeAfter ctx.syncMw request response with
        | .ok (.inl resp) => .ok resp
        | .ok (.inr newResp) => .error (build_hyper_response ctx.headerOk newResp m)
        | .error e =>
          .error (build_hyper_response ctx.headerOk
            (Response.error e.status e.message) (m.incErrors))
    match step2 with
    | .error out => out
    | .ok response =>
      let respFinal :=
        match ctx.prometheus with
        | some p =>
          match p.after request response with
          | .ok r => r.2
          | .error _ => response
        | none => response
      build_hyper_response ctx.headerOk respFinal m

/-- The generic (slow-path) response construction (src/server/mod.rs:861-
949): restore the after-middleware request (`unwrap_or_default`), turn the
handler result into an internal `Response` (a handler error becomes a 500
with the error text as body and one error counted), then run the after
stages. -/
def slowPath (ctx : ServerCtx) (afterReq : Option Request)
    (result : Except (List Nat) HandlerResult) (m : Metrics) :
    WireResponse × Metrics :=
  let request := afterReq.getD Request.empty
  let rm : Response × Metrics :=
    match result with
    | .ok (.jsonBytes bytes) => (Response.from_json_bytes bytes 200, m)
    | .ok (.jsonValue v) => (responseFromValue ctx.jsonSerialize v, m)
    | .error err => (Response.error 500 err, m.incErrors)
  afterStages ctx request rm.1 rm.2

/-- The fast-path wire response (src/server/mod.rs:843-854): count
`bytes_sent`, then build a hyper response directly with status 200 and
`Content-Type: application/json`; a builder failure falls back to the
default response with the fixed body. -/
def fastPathWire (headerOk : String → String → Bool) (bytes : List Nat)
    (m : Metrics) : WireResponse × Metrics :=
  let m := m.addBytesSent bytes.length
  if headerOk "Content-Type" "application/json" then
    ({ status := 200, headers := [("Content-Type", "application/json")],
       body := bytes }, m)
  else
    ({ status := 200, headers := [], body := ascii "Internal Server Error" }, m)

/-- The pre-handler pipeline of `handle_request` (src/server/mod.rs:663-
831): count the request, match the route (a miss returns 404 at once,
before query, header, or body processing), then parse the query (only when
non-empty), copy headers, collect the body, and run the sync, async,
prometheus, and guard "before" stages in that order. -/
def dispatchPre (ctx : ServerCtx) (wreq : WireRequest) (m0 : Metrics) :
    Except (WireResponse × Metrics) (RouteMatch × Request × Metrics) :=
  let m := m0.incRequests
  match ctx.matchRoute wreq.method wreq.path with
  | none =>
    .error (build_hyper_response ctx.headerOk
      (Response.not_found (ascii ("Not Found: " ++ wreq.method ++ " " ++ wreq.path))) m)
  | some routeMatch =>
    let query := queryOf wreq.query
    let bm := collectBody wreq.method wreq.bodyResult m
    let request : Request :=
      { method := wreq.method, path := wreq.path, params := routeMatch.params
        query := query, headers := wreq.headers, body := bm.1 }
    match beforeStage ctx ctx.syncMw request bm.2 with
    | .error out => .error out
    | .ok request =>
      match beforeStage ctx ctx.asyncMw request bm.2 with
      | .error out => .error out
      | .ok request =>
        match promBefore ctx request bm.2 with
        | .error out => .error out
        | .ok request =>
          match beforeStage ctx ctx.guards request bm.2 with
          | .error out => .error out
          | .ok request => .ok (routeMatch, request, bm.2)

/-- `handle_request` (src/server/mod.rs:651-950), including the fast path:
when no after-middleware, no guards, and no prometheus hook are configured
and the handler returned pre-serialized bytes, the wire response is built
directly; otherwise the generic slow path runs. -/
def handle_request (ctx : ServerCtx) (wreq : WireRequest) (m0 : Metrics) :
    WireResponse × Metrics :=
  match dispatchPre ctx wreq m0 with
  | .error out => out
  | .ok (routeMatch, request, m) =>
    let hasAfterMw := !ctx.syncMw.isEmpty || !ctx.asyncMw.isEmpty
    let afterReq := if hasAfterMw then some request.cloneWithoutBody else none
    let result := ctx.invoke routeMatch.handler_id request
    if !hasAfterMw && ctx.guards.isEmpty && ctx.prometheus.isNone then
      match result with
      | .ok (.jsonBytes bytes) => fastPathWire ctx.headerOk bytes m
      | r => slowPath ctx afterReq r m
    else slowPath ctx afterReq result m

/-- `handle_request` with the fast path removed (src/server/mod.rs without
lines 833-859): every handler result goes through the generic slow path.
Reference implementation for the fast-path equivalence claim. -/
def handle_request_generic (ctx : ServerCtx) (wreq : WireRequest)
    (m0 : Metrics) : WireResponse × Metrics :=
  match dispatchPre ctx wreq m0 with
  | .error out => out
  | .ok (routeMatch, request, m) =>
    let hasAfterMw := !ctx.syncMw.isEmpty || !ctx.asyncMw.isEmpty
    let afterReq := if hasAfterMw then some request.cloneWithoutBody else none
    let result := ctx.invoke routeMatch.handler_id request
    slowPath ctx afterReq result m

-- ============================================================================
-- Shutdown coordinator (src/server/mod.rs:308-380)
-- ============================================================================

/-- Observable state of the `ShutdownCoordinator`: the atomic
`shutdown_initiated` flag and the atomic `active_requests` counter. -/
structure CoordState where
  shutdownInitiated : Bool
  activeRequests : Nat
deriving DecidableEq

/-- The coordinator operations that touch its state:
`shutdown()` stores `true` into the flag (src/server/mod.rs:337-340);
`request_started` / `request_finished` adjust the in-flight counter
(351-359).  `is_shutting_down`, `active_requests`, `subscribe`, and
`drain` only read. -/
inductive CoordOp where
  | shutdownOp
  | requestStarted
  | requestFinished
deriving DecidableEq

/-- Effect of one coordinator operation on the state.  Atomicity of each
Rust operation means a concurrent execution is some sequential interleaving
of these effects. -/
def applyCoordOp : CoordOp → CoordState → CoordState
  | .shutdownOp, s => { s with shutdownInitiated := true }
  | .requestStarted, s => { s with activeRequests := s.activeRequests + 1 }
  | .requestFinished, s => { s with activeRequests := s.activeRequests - 1 }

/-- Apply a sequence (interleaving) of coordinator operations. -/
def applyCoordOps (ops : List CoordOp) (s : CoordState) : CoordState :=
  ops.foldl (fun st op => applyCoordOp op st) s

/-- `ShutdownCoordinator::is_shutting_down`. -/
def is_shutting_down (s : CoordState) : Bool :=
  s.shutdownInitiated

/-- The flag values observed after each successive operation of a run. -/
def flagsAfter (s : CoordState) : List CoordOp → List Bool
  | [] => []
  | op :: rest =>
    (applyCoordOp op s).shutdownInitiated :: flagsAfter (applyCoordOp op s) rest

/-- Number of `false → true` transitions in a sequence of flag values,
starting from the value `prev`. -/
def countRises (prev : Bool) : List Bool → Nat
  | [] => 0
  | b :: rest => (if !prev && b then 1 else 0) + countRises b rest

-- ============================================================================
-- drain (src/server/mod.rs:367-379)
-- ============================================================================

/-- Result of `ShutdownCoordinator::drain`: how many 100ms polls happened and
whether the drain-timeout warning was emitted. -/
structure DrainResult where
  polls : Nat
  warned : Bool
deriving DecidableEq

/-- The polling loop of `drain` (src/server/mod.rs:369-378), with time
discretized to the 100ms sleep: `active k` is the in-flight count observed
at the k-th poll and `100 * k` the elapsed milliseconds there.  The loop
exits when the count reaches zero, or warns and breaks once the elapsed
time exceeds the drain timeout. -/
def drainLoop (active : Nat → Nat) (timeoutMs : Nat) (iter : Nat) : DrainResult :=
  if active iter = 0 then { polls := iter, warned := false }
  else if 100 * iter > timeoutMs then { polls := iter, warned := true }
  else drainLoop active timeoutMs (iter + 1)
termination_by timeoutMs / 100 + 1 - iter
decreasing_by
  rename_i h2
  have h3 : iter ≤ timeoutMs / 100 := by
    rw [Nat.le_div_iff_mul_le (by norm_num : 0 < 100)]
    omega
  omega


/-- `ShutdownCoordinator::drain`. -/
def drain (active : Nat → Nat) (timeoutMs : Nat) : DrainResult :=
  drainLoop active timeoutMs 0

-- ============================================================================
-- Connection lifecycle (src/server/mod.rs:545-632)
-- ============================================================================

/-- Events on the `active_connections` counter: `inc_connections` on accept
(src/server/mod.rs:558), `dec_connections` at the end of the spawned
per-connection task (631). -/
inductive ConnEvent where
  | inc
  | dec
deriving DecidableEq

/-- How a per-connection task can end. -/
inductive ConnEnd where
  | normalClose
  | protoError
  | panicked
deriving DecidableEq

/-- Counter events emitted by one accepted connection, by the code's
control flow: `inc_connections()` runs before the task is spawned; the task
runs `serve_connection` and then — whether that returned `Ok` (normal
close) or `Err` (protocol error) — falls through to `dec_connections()`.
A panic-equivalent failure inside the task unwinds past line 631 (the
decrement is a plain trailing statement, not a drop guard), so no decrement
is emitted. -/
def connectionEvents : ConnEnd → List ConnEvent
  | .normalClose => [.inc, .dec]
  | .protoError => [.inc, .dec]
  | .panicked => [.inc]

/-- Effect of one counter event on the (idealized, unbounded) counter
value. -/
def applyConnEvent (c : ℤ) : ConnEvent → ℤ
  | .inc => c + 1
  | .dec => c - 1

/-- Counter value after a trace of events. -/
def connCounter (init : ℤ) (trace : List ConnEvent) : ℤ :=
  trace.foldl applyConnEvent init

/-- `ConnTrace a d t`: `t` is a possible interleaving of the counter events
of a set of connections of which `a` are accepted but not yet started
(each will emit `inc` then later `dec`) and `d` are in flight (each will
emit its `dec`), and all of them terminate by normal close or protocol
error.  Connections are symmetric, so only these two counts matter. -/
inductive ConnTrace : Nat → Nat → List ConnEvent → Prop where
  | nil : ConnTrace 0 0 []
  | start (a d : Nat) (t : List ConnEvent) (h : ConnTrace a (d + 1) t) :
      ConnTrace (a + 1) d (.inc :: t)
  | finish (a d : Nat) (t : List ConnEvent) (h : ConnTrace a d t) :
      ConnTrace a (d + 1) (.dec :: t)

/-- Number of `inc` events in a trace. -/
def countInc (t : List ConnEvent) : Nat :=
  (t.filter (fun e => e = ConnEvent.inc)).length

/-- Number of `dec` events in a trace. -/
def countDec (t : List ConnEvent) : Nat :=
  (t.filter (fun e => e = ConnEvent.dec)).length

-- ============================================================================
-- Helper lemmas
-- ============================================================================

lemma findIdx61_append (k v : List Nat) (h : ¬ 61 ∈ k) :
    (k ++ 61 :: v).findIdx? (fun b => b = 61) = some k.length := by
  induction k with
  | nil => simp [List.findIdx?]
  | cons a as ih =>
    have ha : a ≠ 61 := by intro hc; exact h (by simp [hc])
    have hmem : ¬ 61 ∈ as := fun hc => h (by simp [hc])
    simp [List.findIdx?_cons, ha, List.findIdx?_succ, ih hmem]

lemma findIdx61_none (seg : List Nat) (h : ¬ 61 ∈ seg) :
    seg.findIdx? (fun b => b = 61) = none := by
  induction seg with
  | nil => simp [List.findIdx?]
  | cons a as ih =>
    have ha : a ≠ 61 := by intro hc; exact h (by simp [hc])
    have hmem : ¬ 61 ∈ as := fun hc => h (by simp [hc])
    simp [List.findIdx?_cons, ha, List.findIdx?_succ, ih hmem]

lemma drainLoop_spec (active : Nat → Nat) (timeoutMs : Nat) (iter : Nat) :
    (active (drainLoop active timeoutMs iter).polls = 0 ∧
      (drainLoop active timeoutMs iter).warned = false) ∨
    ((drainLoop active timeoutMs iter).warned = true ∧
      100 * (drainLoop active timeoutMs iter).polls > timeoutMs ∧
      active (drainLoop active timeoutMs iter).polls ≠ 0) := by
  induction iter using drainLoop.induct active timeoutMs with
  | case1 iter hz =>
    rw [drainLoop]
    simp [hz]
  | case2 iter hz ht =>
    rw [drainLoop]
    simp only [hz, ht]
    simp [hz, ht]
  | case3 iter hz ht ih =>
    rw [drainLoop]
    simp only [if_neg hz, if_neg ht]
    exact ih

lemma applyCoordOp_flag_true (op : CoordOp) (s : CoordState)
    (h : s.shutdownInitiated = true) :
    (applyCoordOp op s).shutdownInitiated = true := by
  cases op <;> simp [applyCoordOp, h]

lemma applyCoordOps_flag_true (ops : List CoordOp) (s : CoordState)
    (h : s.shutdownInitiated = true) :
    (applyCoordOps ops s).shutdownInitiated = true := by
  induction ops generalizing s with
  | nil => simp [applyCoordOps, h]
  | cons op rest ih =>
    simp only [applyCoordOps, List.foldl_cons] at *
    exact ih _ (applyCoordOp_flag_true op s h)

lemma countRises_from_true (ops : List CoordOp) (s : CoordState)
    (h : s.shutdownInitiated = true) :
    countRises true (flagsAfter s ops) = 0 := by
  induction ops generalizing s with
  | nil => simp [flagsAfter, countRises]
  | cons op rest ih =>
    have h2 := applyCoordOp_flag_true op s h
    simp [flagsAfter, countRises, h2, ih _ h2]

lemma countRises_one (ops : List CoordOp) (s : CoordState)
    (hflag : s.shutdownInitiated = false) (hmem : CoordOp.shutdownOp ∈ ops) :
    countRises s.shutdownInitiated (flagsAfter s ops) = 1 := by
  induction ops generalizing s with
  | nil => cases hmem
  | cons op rest ih =>
    by_cases hop : op = CoordOp.shutdownOp
    · subst hop
      have hs : (applyCoordOp .shutdownOp s).shutdownInitiated = true := by
        simp [applyCoordOp]
      simp [flagsAfter, countRises, hflag, hs, countRises_from_true rest _ hs]
    · have hflag2 : (applyCoordOp op s).shutdownInitiated = false := by
        cases op <;> simp_all [applyCoordOp]
      have hmem2 : CoordOp.shutdownOp ∈ rest := by
        rcases List.mem_cons.mp hmem with hc | hc
        · exact absurd hc.symm hop
        · exact hc
      have := ih _ hflag2 hmem2
      simp only [hflag2] at this
      simp [flagsAfter, countRises, hflag, hflag2, this]

/-- Zero metrics, as created by `ServerMetrics::new()`. -/
def metricsZero : Metrics :=
  { totalRequests := 0, activeConnections := 0, bytesReceived := 0,
    bytesSent := 0, totalErrors := 0 }

-- ============================================================================
-- Claims
-- ============================================================================

/-- C9: `avg_latency` returns zero when the latency buffer is empty and
`requests_per_second` returns 0 when elapsed time is zero; in the non-empty
case `avg_latency` divides by the (positive) buffer length, so neither
derived-metric computation can divide by zero. -/
theorem c9_derived_metrics_guard_division :
    avg_latency [] = 0 ∧
    (∀ total : Nat, requests_per_second total 0 = 0) ∧
    (∀ (x : Nat) (ls : List Nat),
      avg_latency (x :: ls) = (x :: ls).sum / (ls.length + 1)) := by
  refine ⟨rfl, fun total => by simp [requests_per_second], fun x ls => ?_⟩
  simp [avg_latency]

/-- C5: `drain` always terminates (it is a total function of the observed
in-flight counts), polling in 100ms steps; on return either the in-flight
count at the final poll was zero, or the warning was emitted with the drain
timeout exceeded.  This includes a 0ms timeout with a permanently active
request, which warns after one poll. -/
theorem c5_drain_terminates_or_warns :
    ∀ (active : Nat → Nat) (timeoutMs : Nat),
      (active (drain active timeoutMs).polls = 0 ∨
        ((drain active timeoutMs).warned = true ∧
          100 * (drain active timeoutMs).polls > timeoutMs)) ∧
      ((drain active timeoutMs).warned = false →
        active (drain active timeoutMs).polls = 0) ∧
      drain (fun _ => 1) 0 = { polls := 1, warned := true } := by
  intro active timeoutMs
  have h := drainLoop_spec active timeoutMs 0
  unfold drain
  refine ⟨?_, ?_, by simp [drain, drainLoop]⟩
  · rcases h with ⟨h1, _⟩ | ⟨h1, h2, _⟩
    · exact Or.inl h1
    · exact Or.inr ⟨h1, h2⟩
  · intro hw
    rcases h with ⟨h1, _⟩ | ⟨h1, _, _⟩
    · exact h1
    · rw [hw] at h1; cases h1

/-- C5 witness: a drain that finds zero active requests at the first poll
returns without the warning, and the theorem then yields that the final
observed count is zero. -/
theorem c5_witness :
    (fun _ => (0 : Nat)) (drain (fun _ => 0) 5).polls = 0 :=
  (c5_drain_terminates_or_warns (fun _ => 0) 5).2.1 (by simp [drain, drainLoop])

/-- C8: query parsing returns the empty map for an empty query string via
the dedicated guard; the scenario `a=1&b=two+words` parses to
`{a ↦ 1, b ↦ two words}`; a percent-decoding (UTF-8) failure degrades to
the empty string; and for a `key=value` pair every `+` in the value is
replaced by a space before percent-decoding. -/
theorem c8_query_string_parsing :
    queryOf [] = [] ∧
    queryOf (ascii "a=1&b=two+words") =
      [(ascii "a", ascii "1"), (ascii "b", ascii "two words")] ∧
    (∀ bs : List Nat, utf8Valid (percentDecode bs) = false →
      decodeOrEmpty bs = []) ∧
    (∀ k v : List Nat, ¬ 61 ∈ k →
      parsePair (k ++ 61 :: v) =
        some (decodeOrEmpty k, decodeOrEmpty (replacePlus v))) := by
  refine ⟨by decide, by decide, ?_, ?_⟩
  · intro bs h
    simp [decodeOrEmpty, h]
  · intro k v h
    have htake : (k ++ 61 :: v).take k.length = k := by
      simp [List.take_left]
    have hdrop : (k ++ 61 :: v).drop (k.length + 1) = v := by
      have : k ++ 61 :: v = (k ++ [61]) ++ v := by simp
      rw [this]
      exact List.drop_left' (by simp)
    simp [parsePair, findIdx61_append k v h, htake, hdrop]

/-- C8 witness: instantiates the degradation clause at `%FF` (which
percent-decodes to the invalid UTF-8 byte 255) and the plus-replacement
clause at `b=two+words`. -/
theorem c8_witness :
    decodeOrEmpty (ascii "%FF") = [] ∧
    parsePair (ascii "b=two+words") = some (ascii "b", ascii "two words") := by
  constructor
  · exact c8_query_string_parsing.2.2.1 (ascii "%FF") (by decide)
  · have e : ascii "b=two+words" = ascii "b" ++ 61 :: ascii "two+words" := by
      decide
    rw [e, c8_query_string_parsing.2.2.2 (ascii "b") (ascii "two+words") (by decide)]
    decide

/-- C10: a non-empty query pair with no `=` is kept, mapped to the empty
string under its decoded key; entirely empty pairs (leading, trailing, or
doubled `&`) are dropped, shown on `flag&a=1` and `&a=1&&b=2&`. -/
theorem c10_pairs_without_eq_kept_empty_dropped :
    (∀ seg : List Nat, seg ≠ [] → ¬ 61 ∈ seg →
      parsePair seg = some (decodeOrEmpty seg, [])) ∧
    queryOf (ascii "flag&a=1") =
      [(ascii "flag", []), (ascii "a", ascii "1")] ∧
    queryOf (ascii "&a=1&&b=2&") =
      [(ascii "a", ascii "1"), (ascii "b", ascii "2")] := by
  refine ⟨?_, by decide, by decide⟩
  intro seg _ h
  simp [parsePair, findIdx61_none seg h]

/-- C10 witness: instantiates the no-`=` clause at the pair `flag`. -/
theorem c10_witness :
    parsePair (ascii "flag") = some (decodeOrEmpty (ascii "flag"), []) :=
  c10_pairs_without_eq_kept_empty_dropped.1 (ascii "flag") (by decide) (by decide)

/-- C4: `shutdown()` is idempotent (a second application of its state
effect is the identity), `is_shutting_down` is monotone under every
coordinator operation (the flag is never un-set), and any interleaving of
operations containing at least one `shutdown()` call, started from the
not-shutting-down state, performs exactly one `false → true` transition of
the flag.  Each Rust operation is a single atomic access, so a concurrent
execution is one such interleaving. -/
theorem c4_shutdown_idempotent_monotone :
    (∀ s : CoordState,
      applyCoordOp .shutdownOp (applyCoordOp .shutdownOp s) =
        applyCoordOp .shutdownOp s) ∧
    (∀ (ops : List CoordOp) (s : CoordState), is_shutting_down s = true →
      is_shutting_down (applyCoordOps ops s) = true) ∧
    (∀ (ops : List CoordOp) (s : CoordState), s.shutdownInitiated = false →
      CoordOp.shutdownOp ∈ ops →
      countRises s.shutdownInitiated (flagsAfter s ops) = 1) := by
  refine ⟨fun s => by simp [applyCoordOp], ?_, ?_⟩
  · intro ops s h
    exact applyCoordOps_flag_true ops s h
  · intro ops s hflag hmem
    exact countRises_one ops s hflag hmem

/-- C4 witness: two consecutive `shutdown()` calls from the initial state
cause exactly one transition, and the flag survives a later
`request_started`. -/
theorem c4_witness :
    countRises (CoordState.mk false 0).shutdownInitiated
      (flagsAfter (CoordState.mk false 0)
        [CoordOp.shutdownOp, CoordOp.shutdownOp]) = 1 ∧
    is_shutting_down
      (applyCoordOps [CoordOp.requestStarted] (CoordState.mk true 5)) = true :=
  ⟨c4_shutdown_idempotent_monotone.2.2 [CoordOp.shutdownOp, CoordOp.shutdownOp]
      (CoordState.mk false 0) rfl (by decide),
    c4_shutdown_idempotent_monotone.2.1 [CoordOp.requestStarted]
      (CoordState.mk true 5) rfl⟩

/-- C7: `build_hyper_response` always adds the internal response's body
length to `bytes_sent`; an internal status with no valid wire equivalent
(outside 100..=999) is mapped to 500 (when serialization succeeds); and on
a wire-serialization failure (an invalid header poisons the builder) it
falls back to the fixed generic error body rather than failing. -/
theorem c7_build_hyper_response_fallbacks :
    ∀ (headerOk : String → String → Bool) (r : Response) (m : Metrics),
      (build_hyper_response headerOk r m).2.bytesSent =
        m.bytesSent + r.body.length ∧
      (¬ (100 ≤ r.status ∧ r.status ≤ 999) →
        r.headers.all (fun kv => headerOk kv.1 kv.2) = true →
        (build_hyper_response headerOk r m).1.status = 500) ∧
      (r.headers.all (fun kv => headerOk kv.1 kv.2) = false →
        (build_hyper_response headerOk r m).1.body =
          ascii "Internal Server Error") := by
  intro hOk r m
  refine ⟨?_, ?_, ?_⟩
  · unfold build_hyper_response
    split <;> simp [Metrics.addBytesSent]
  · intro hstat hall
    simp [build_hyper_response, hall, statusFromU16, hstat]
  · intro hall
    simp [build_hyper_response, hall]

/-- C7 witness: internal status 1000 (no wire equivalent) maps to 500, and
with a header the wire library rejects, the body falls back to the fixed
generic error text. -/
theorem c7_witness :
    (build_hyper_response (fun _ _ => true)
      (Response.mk 1000 [] []) metricsZero).1.status = 500 ∧
    (build_hyper_response (fun _ _ => false)
      (Response.mk 200 [("X", "y")] []) metricsZero).1.body =
        ascii "Internal Server Error" :=
  ⟨(c7_build_hyper_response_fallbacks (fun _ _ => true)
      (Response.mk 1000 [] []) metricsZero).2.1 (by decide) (by decide),
    (c7_build_hyper_response_fallbacks (fun _ _ => false)
      (Response.mk 200 [("X", "y")] []) metricsZero).2.2 (by decide)⟩

/-- Context with an empty route table and no middleware, guards, or
prometheus hook (witness configurations). -/
def ctxMiss : ServerCtx :=
  { matchRoute := fun _ _ => none
    invoke := fun _ _ => .error []
    syncMw := []
    asyncMw := []
    guards := []
    prometheus := none
    headerOk := fun _ _ => true
    jsonSerialize := fun _ => [] }

/-- A `GET /missing` wire request with no query, headers, or body. -/
def reqMiss : WireRequest :=
  { method := "GET", path := "/missing", query := [], headers := [],
    bodyResult := .ok [] }

/-- Context whose single route maps to a handler that fails with "boom". -/
def ctxBoom : ServerCtx :=
  { ctxMiss with
    matchRoute := fun _ _ => some { handler_id := 0, params := [] }
    invoke := fun _ _ => .error (ascii "boom") }

/-- Context whose single route maps to a handler returning pre-serialized
bytes. -/
def ctxPing : ServerCtx :=
  { ctxMiss with
    matchRoute := fun _ _ => some { handler_id := 0, params := [] }
    invoke := fun _ _ => .ok (.jsonBytes (ascii "ok")) }

/-- A `GET /ping` wire request. -/
def reqPing : WireRequest :=
  { method := "GET", path := "/ping", query := [], headers := [],
    bodyResult := .ok [] }

/-- C1: when no route matches, `handle_request` returns a 404 wire response
built before the query string, headers, or body are touched: the result is
independent of the request's query, headers, and body stream, and
`bytes_received` is unchanged for that request. -/
theorem c1_route_miss_fast_404 :
    ∀ (ctx : ServerCtx) (wreq : WireRequest) (m : Metrics),
      ctx.matchRoute wreq.method wreq.path = none →
      (handle_request ctx wreq m).1.status = 404 ∧
      (handle_request ctx wreq m).2.bytesReceived = m.bytesReceived ∧
      (∀ (q : List Nat) (hs : List (String × String))
          (b : Except Unit (List Nat)),
        handle_request ctx
          { wreq with query := q, headers := hs, bodyResult := b } m =
          handle_request ctx wreq m) := by
  intro ctx wreq m h
  have hmain : handle_request ctx wreq m =
      build_hyper_response ctx.headerOk
        (Response.not_found
          (ascii ("Not Found: " ++ wreq.method ++ " " ++ wreq.path)))
        m.incRequests := by
    simp [handle_request, dispatchPre, h]
  refine ⟨?_, ?_, ?_⟩
  · rw [hmain]
    simp [build_hyper_response, Response.not_found, statusFromU16]
  · rw [hmain]
    simp [build_hyper_response, Response.not_found, Metrics.addBytesSent,
      Metrics.incRequests]
  · intro q hs b
    rw [hmain]
    simp [handle_request, dispatchPre, h]

/-- C1 witness: `GET /missing` against an empty route table yields 404 with
`bytes_received` still zero. -/
theorem c1_witness :
    (handle_request ctxMiss reqMiss metricsZero).1.status = 404 ∧
    (handle_request ctxMiss reqMiss metricsZero).2.bytesReceived = 0 :=
  ⟨(c1_route_miss_fast_404 ctxMiss reqMiss metricsZero rfl).1,
    (c1_route_miss_fast_404 ctxMiss reqMiss metricsZero rfl).2.1⟩

lemma collectBody_ok_totalErrors (method : String) (bs : List Nat)
    (m : Metrics) :
    (collectBody method (.ok bs) m).2.totalErrors = m.totalErrors := by
  unfold collectBody
  split
  any_goals rfl
  split
  · rename_i heq
    cases heq
    split <;> simp [Metrics.addBytesReceived]
  · rename_i heq
    cases heq

/-- C6: with no middleware, guards, or prometheus hook configured and a
readable body stream, a handler that fails with error text `err` produces a
wire response of status 500 whose body is exactly `err`, with the error
counter incremented exactly once; `handle_request` returns this response
normally (it is total — the Rust signature is `Result<_, Infallible>`). -/
theorem c6_handler_error_500 :
    ∀ (ctx : ServerCtx) (wreq : WireRequest) (m : Metrics) (rm : RouteMatch)
      (err bodyBs : List Nat),
      ctx.syncMw = [] → ctx.asyncMw = [] → ctx.guards = [] →
      ctx.prometheus = none →
      ctx.matchRoute wreq.method wreq.path = some rm →
      (∀ req, ctx.invoke rm.handler_id req = .error err) →
      wreq.bodyResult = .ok bodyBs →
      (handle_request ctx wreq m).1.status = 500 ∧
      (handle_request ctx wreq m).1.body = err ∧
      (handle_request ctx wreq m).2.totalErrors = m.totalErrors + 1 := by
  intro ctx wreq m rm err bodyBs h1 h2 h3 h4 h5 h6 h7
  have hmain : handle_request ctx wreq m =
      build_hyper_response ctx.headerOk (Response.error 500 err)
        ((collectBody wreq.method (.ok bodyBs) m.incRequests).2.incErrors) := by
    simp [handle_request, dispatchPre, h5, h7, h1, h2, h3, h4, h6,
      beforeStage, promBefore, slowPath, afterStages]
  refine ⟨?_, ?_, ?_⟩
  · rw [hmain]
    simp [build_hyper_response, Response.error, statusFromU16]
  · rw [hmain]
    simp [build_hyper_response, Response.error]
  · rw [hmain]
    simp [build_hyper_response, Response.error, Metrics.addBytesSent,
      Metrics.incErrors, collectBody_ok_totalErrors, Metrics.incRequests]

/-- C6 witness: the scenario handler returning `Err("boom")` yields status
500, body "boom", and error counter 1. -/
theorem c6_witness :
    (handle_request ctxBoom reqPing metricsZero).1.status = 500 ∧
    (handle_request ctxBoom reqPing metricsZero).1.body = ascii "boom" ∧
    (handle_request ctxBoom reqPing metricsZero).2.totalErrors = 1 :=
  c6_handler_error_500 ctxBoom reqPing metricsZero
    { handler_id := 0, params := [] } (ascii "boom") [] rfl rfl rfl rfl rfl
    (fun _ => rfl) rfl

lemma fastPath_eq_build (hOk : String → String → Bool) (bytes : List Nat)
    (m : Metrics) :
    fastPathWire hOk bytes m =
      build_hyper_response hOk (Response.from_json_bytes bytes 200) m := by
  by_cases h : hOk "Content-Type" "application/json" = true
  · simp [fastPathWire, build_hyper_response, Response.from_json_bytes, h,
      statusFromU16]
  · rw [Bool.not_eq_true] at h
    simp [fastPathWire, build_hyper_response, Response.from_json_bytes, h,
      statusFromU16]

/-- C2: with no sync or async middleware, no guards, and no prometheus hook
configured, `handle_request` (with its fast path) is extensionally equal to
the generic slow path on every request and metrics state — in particular
byte-for-byte equal in status, headers, and body when the handler returns
pre-serialized bytes — and the fast-path wire response is status 200 with
`Content-Type: application/json` and body exactly the handler's bytes
(when the wire library accepts that header, as `hyper` does). -/
theorem c2_fast_path_equivalence :
    ∀ (ctx : ServerCtx) (wreq : WireRequest) (m : Metrics),
      ctx.syncMw = [] → ctx.asyncMw = [] → ctx.guards = [] →
      ctx.prometheus = none →
      (handle_request ctx wreq m = handle_request_generic ctx wreq m ∧
        ∀ (bytes : List Nat) (mm : Metrics),
          ctx.headerOk "Content-Type" "application/json" = true →
          fastPathWire ctx.headerOk bytes mm =
            ({ status := 200,
               headers := [("Content-Type", "application/json")],
               body := bytes }, mm.addBytesSent bytes.length)) := by
  intro ctx wreq m h1 h2 h3 h4
  constructor
  · unfold handle_request handle_request_generic
    cases hd : dispatchPre ctx wreq m with
    | error out => rfl
    | ok v =>
      obtain ⟨routeMatch, request, mm⟩ := v
      simp only [h1, h2, h3, h4]
      cases hr : ctx.invoke routeMatch.handler_id request with
      | ok hres =>
        cases hres with
        | jsonBytes bytes =>
          simp only [List.isEmpty_nil, Bool.not_true, Bool.or_self,
            Bool.not_false, Option.isNone_none, Bool.and_true, Bool.and_self,
            if_false, if_true, Bool.true_and]
          rw [fastPath_eq_build]
          simp [slowPath, afterStages, h1, h2, h4]
        | jsonValue v => simp
      | error e => simp
  · intro bytes mm hct
    simp [fastPathWire, hct]

/-- C2 witness: the empty configuration with a handler returning the bytes
"ok": the full dispatcher equals the generic slow path, and the fast-path
response has the claimed shape. -/
theorem c2_witness :
    handle_request ctxPing reqPing metricsZero =
      handle_request_generic ctxPing reqPing metricsZero ∧
    fastPathWire ctxPing.headerOk (ascii "ok") metricsZero =
      ({ status := 200, headers := [("Content-Type", "application/json")],
         body := ascii "ok" }, metricsZero.addBytesSent (ascii "ok").length) :=
  ⟨(c2_fast_path_equivalence ctxPing reqPing metricsZero rfl rfl rfl rfl).1,
    (c2_fast_path_equivalence ctxPing reqPing metricsZero rfl rfl rfl rfl).2
      (ascii "ok") metricsZero rfl⟩

lemma countInc_cons (e : ConnEvent) (t : List ConnEvent) :
    countInc (e :: t) = countInc t + (if e = ConnEvent.inc then 1 else 0) := by
  cases e <;> simp [countInc, List.filter_cons]

lemma countDec_cons (e : ConnEvent) (t : List ConnEvent) :
    countDec (e :: t) = countDec t + (if e = ConnEvent.dec then 1 else 0) := by
  cases e <;> simp [countDec, List.filter_cons]

lemma connTrace_counts {a d : Nat} {t : List ConnEvent} (h : ConnTrace a d t) :
    countInc t = a ∧ countDec t = a + d := by
  induction h with
  | nil => simp [countInc, countDec]
  | start a d t h ih =>
    simp [countInc_cons, countDec_cons] at *
    omega
  | finish a d t h ih =>
    simp [countInc_cons, countDec_cons] at *
    omega

lemma connTrace_dec_le {a d : Nat} {t : List ConnEvent} (h : ConnTrace a d t) :
    ∀ p q : List ConnEvent, t = p ++ q → countDec p ≤ countInc p + d := by
  induction h with
  | nil =>
    intro p q hpq
    have hp : p = [] := by cases p <;> simp_all
    subst hp
    simp [countInc, countDec]
  | start a d t h ih =>
    intro p q hpq
    cases p with
    | nil => simp [countInc, countDec]
    | cons e p2 =>
      rw [List.cons_append] at hpq
      injection hpq with he ht
      subst he
      have := ih p2 q ht
      simp [countInc_cons, countDec_cons]
      omega
  | finish a d t h ih =>
    intro p q hpq
    cases p with
    | nil => simp [countInc, countDec]
    | cons e p2 =>
      rw [List.cons_append] at hpq
      injection hpq with he ht
      subst he
      have := ih p2 q ht
      simp [countInc_cons, countDec_cons]
      omega

lemma connCounter_eq (init : ℤ) (p : List ConnEvent) :
    connCounter init p = init + countInc p - countDec p := by
  induction p generalizing init with
  | nil => simp [connCounter, countInc, countDec]
  | cons e rest ih =>
    cases e
    · have h1 : connCounter init (ConnEvent.inc :: rest) =
          connCounter (init + 1) rest := rfl
      rw [h1, ih, countInc_cons, countDec_cons]
      simp
      ring
    · have h1 : connCounter init (ConnEvent.dec :: rest) =
          connCounter (init - 1) rest := rfl
      rw [h1, ih, countInc_cons, countDec_cons]
      simp
      ring

/-- C3 (amended): each accepted connection increments `active_connections`
once on accept, and each connection whose task ends by normal close or
protocol error decrements it exactly once; for any interleaving of N such
terminating connections the counter returns to its initial value and never
drops below it (hence stays ≥ 0, and the `u64` `fetch_sub` never
underflows).  A panic-equivalent failure in the task skips the decrement —
see the counterexample. -/
theorem c3_counter_pairing_amended (N : Nat) (t : List ConnEvent) (init : ℤ)
    (htrace : ConnTrace N 0 t) (hinit : 0 ≤ init) :
    connCounter init t = init ∧
    ∀ p q : List ConnEvent, t = p ++ q →
      0 ≤ connCounter init p ∧ init ≤ connCounter init p := by
  obtain ⟨hinc, hdec⟩ := connTrace_counts htrace
  constructor
  · rw [connCounter_eq, hinc, hdec]
    omega
  · intro p q hpq
    have hle := connTrace_dec_le htrace p q hpq
    rw [connCounter_eq]
    constructor <;> omega

/-- C3 counterexample: a single accepted connection whose task ends with a
panic-equivalent failure emits the increment but no decrement
(`dec_connections()` at src/server/mod.rs:631 is a plain trailing statement,
not a drop guard, so an unwind skips it): the counter ends at 1, not back
at its pre-sequence value 0, refuting the claim's "regardless of how it
ends (…, or panic-equivalent failure)". -/
theorem c3_counterexample :
    connCounter 0 (connectionEvents ConnEnd.panicked) = 1 ∧
    countDec (connectionEvents ConnEnd.panicked) = 0 := by decide

/-- C3 witness: one connection accepted and terminated normally — the
counter returns to 0 and is non-negative after the increment-only prefix. -/
theorem c3_witness :
    connCounter 0 [ConnEvent.inc, ConnEvent.dec] = 0 ∧
    0 ≤ connCounter 0 [ConnEvent.inc] := by
  have htr : ConnTrace 1 0 [ConnEvent.inc, ConnEvent.dec] :=
    ConnTrace.start 0 0 _ (ConnTrace.finish 0 0 _ ConnTrace.nil)
  have h := c3_counter_pairing_amended 1 _ 0 htr (by norm_num)
  exact ⟨h.1, (h.2 [ConnEvent.inc] [ConnEvent.dec] rfl).1⟩
